import Mathlib

/-!
Verification of the MSVideoQualityController control loop
(`src/voip/msvideoqualitycontroller.c`).

The controller is embedded shallowly.  External collaborators (the encoder
configuration query/apply primitives, the two ranking functions and the CPU
count) are packaged into an `Env` record of pure functions, read fresh on
every call, exactly as the C code queries them fresh on every call.  Every
write to a collaborator and every query to a ranking collaborator is recorded
in an effect trace, so that theorems can talk about which calls a code path
performs and with which arguments.  Machine `int`s become `Int`; the C
`float` values (fps, the bitrate thresholds) become exact rationals, with the
C cast `(int)` modelled as truncation toward zero.
-/

/-- A video size, as in `MSVideoSize` (width and height in pixels). -/
structure MSVideoSize where
  width : Int
  height : Int
deriving DecidableEq, Repr

/-- `ms_video_size_equal` from msvideo: componentwise equality of sizes. -/
def ms_video_size_equal (s1 s2 : MSVideoSize) : Bool :=
  s1.width == s2.width && s1.height == s2.height

/-- The fields of `MSVideoConfiguration` that the controller reads or
writes: resolution, fps, required bitrate and bitrate limit. -/
structure MSVideoConfiguration where
  vsize : MSVideoSize
  fps : ℚ
  required_bitrate : Int
  bitrate_limit : Int
deriving DecidableEq, Repr

/-- The fields of the `VideoStream` that the controller mutates. -/
structure VideoStream where
  sent_vsize : MSVideoSize
  preview_vsize : MSVideoSize
  forced_fps : ℚ
  configured_fps : ℚ
deriving DecidableEq, Repr

/-- The controller object `MSVideoQualityController`: the last TMMBR
received (`-1` = none yet), the increase-timer state and the last
video size the controller itself requested. -/
structure MSVideoQualityController where
  last_tmmbr : Int
  increase_timer_start : Int
  increase_timer_running : Bool
  last_vsize : MSVideoSize
deriving DecidableEq, Repr

/-- Combined mutable state of one controller call: the controller object
together with the stream fields it writes through `obj->stream`. -/
structure CState where
  obj : MSVideoQualityController
  stream : VideoStream
deriving DecidableEq, Repr

/-- The external world of one call: what the encoder reports
(`MS_VIDEO_ENCODER_GET_CONFIGURATION_LIST` yielding `none` models the list
pointer staying NULL, `MS_VIDEO_ENCODER_GET_CONFIGURATION`), the factory CPU
count, and the two ranking collaborators
`ms_video_find_best_configuration_for_bitrate` and
`ms_video_find_best_configuration_for_size_and_bitrate`. -/
structure Env where
  vconf_list : Option (List MSVideoConfiguration)
  current_vconf : MSVideoConfiguration
  cpu_count : Int
  find_best_for_bitrate : List MSVideoConfiguration → Int → Int → MSVideoConfiguration
  find_best_for_size_and_bitrate : List MSVideoConfiguration → MSVideoSize → Int → Int → MSVideoConfiguration

/-- Observable actions of one call: queries to the ranking collaborators
(with the arguments passed) and writes to the collaborators. -/
inductive Effect where
  /-- query `ms_video_find_best_configuration_for_bitrate list target cpu` -/
  | find_best_for_bitrate (target : Int) (cpu : Int)
  /-- query `ms_video_find_best_configuration_for_size_and_bitrate list vsize cpu bitrate` -/
  | find_best_for_size_and_bitrate (vsize : MSVideoSize) (cpu : Int) (bitrate : Int)
  /-- `video_stream_change_camera_skip_bitrate(stream, stream->cam)` -/
  | change_camera_skip_bitrate
  /-- `MS_FILTER_SET_FPS` pushed to the source -/
  | set_fps (fps : ℚ)
  /-- `MS_VIDEO_ENCODER_SET_CONFIGURATION` applied to the encoder -/
  | set_configuration (vconf : MSVideoConfiguration)
deriving DecidableEq, Repr

/-- `INCREASE_TIMER_DELAY` (seconds). -/
def INCREASE_TIMER_DELAY : Int := 10

/-- `INCREASE_BITRATE_THRESHOLD` (the C literal `1.3f`, idealized). -/
def INCREASE_BITRATE_THRESHOLD : ℚ := 13 / 10

/-- The C cast `(int) q`: truncation toward zero of a rational. -/
def ctrunc (q : ℚ) : Int := q.num.tdiv q.den

/-- `ms_video_quality_controller_new`: zero-initialized object with
`last_tmmbr = -1` and the increase timer idle. -/
def ms_video_quality_controller_new : MSVideoQualityController :=
  { last_tmmbr := -1
    increase_timer_start := 0
    increase_timer_running := false
    last_vsize := { width := 0, height := 0 } }

/-- The fps/bitrate tuning tail of `update_video_quality_from_bitrate`
(the code after the resolution block): query the best configuration for the
current size at the literal bitrate, push its fps to the source if it
differs, clamp the required bitrate to `min bitrate limit`, and apply the
configuration to the encoder.  `e0` is the effect trace accumulated so far. -/
def tuning_step (env : Env) (s : CState) (bitrate : Int)
    (vconf_list : List MSVideoConfiguration) (current_vconf : MSVideoConfiguration)
    (e0 : List Effect) : CState × List Effect :=
  let vconf := env.find_best_for_size_and_bitrate vconf_list current_vconf.vsize env.cpu_count bitrate
  let e1 := e0 ++ [Effect.find_best_for_size_and_bitrate current_vconf.vsize env.cpu_count bitrate]
  let step_fps : MSVideoConfiguration × CState × List Effect :=
    if current_vconf.fps = vconf.fps then
      (current_vconf, s, e1)
    else
      ({ current_vconf with fps := vconf.fps },
       { s with stream := { s.stream with configured_fps := vconf.fps } },
       e1 ++ [Effect.set_fps vconf.fps])
  let new_bitrate_limit := if bitrate < vconf.bitrate_limit then bitrate else vconf.bitrate_limit
  (step_fps.2.1,
   step_fps.2.2 ++ [Effect.set_configuration { step_fps.1 with required_bitrate := new_bitrate_limit }])

/-- `update_video_quality_from_bitrate`: if the encoder exposes no
configuration list, do nothing.  Otherwise, unless `update_only_fps`, search
for the best configuration at `(int)(bitrate / bitrate_threshold)` and, when
it is a genuine resolution change (size differs from `last_vsize` and pixel
count differs from the current configuration), apply the new resolution and
return.  Otherwise fall through to the fps/bitrate tuning step. -/
def update_video_quality_from_bitrate (env : Env) (s : CState) (bitrate : Int)
    (bitrate_threshold : ℚ) (update_only_fps : Bool) : CState × List Effect :=
  match env.vconf_list with
  | none => (s, [])
  | some vconf_list =>
    let current_vconf := env.current_vconf
    if update_only_fps then
      tuning_step env s bitrate vconf_list current_vconf []
    else
      let target := ctrunc ((bitrate : ℚ) / bitrate_threshold)
      let best_vconf := env.find_best_for_bitrate vconf_list target env.cpu_count
      let e0 := [Effect.find_best_for_bitrate target env.cpu_count]
      if ms_video_size_equal s.obj.last_vsize best_vconf.vsize = false ∧
         best_vconf.vsize.width * best_vconf.vsize.height ≠
           current_vconf.vsize.width * current_vconf.vsize.height then
        ({ obj := { s.obj with last_vsize := best_vconf.vsize }
           stream := { s.stream with
                       sent_vsize := best_vconf.vsize
                       preview_vsize := best_vconf.vsize
                       forced_fps := best_vconf.fps } },
         e0 ++ [Effect.change_camera_skip_bitrate])
      else
        tuning_step env s bitrate vconf_list current_vconf e0

/-- `ms_video_quality_controller_process_timer`: if the increase timer is
running and at least `INCREASE_TIMER_DELAY` seconds have elapsed, run a full
adjustment at the last TMMBR with the inflated threshold and stop the timer. -/
def ms_video_quality_controller_process_timer (env : Env) (now : Int) (s : CState) :
    CState × List Effect :=
  if s.obj.increase_timer_running then
    if now - s.obj.increase_timer_start ≥ INCREASE_TIMER_DELAY then
      let r := update_video_quality_from_bitrate env s s.obj.last_tmmbr INCREASE_BITRATE_THRESHOLD false
      ({ r.1 with obj := { r.1.obj with increase_timer_running := false } }, r.2)
    else (s, [])
  else (s, [])

/-- The increase/decrease/equal comparison of
`ms_video_quality_controller_update_from_tmmbr` (everything after the
first-feedback block), including the final unconditional
`obj->last_tmmbr = tmmbr`. -/
def tmmbr_compare_branch (env : Env) (now : Int) (s : CState) (tmmbr : Int) :
    CState × List Effect :=
  if s.obj.last_tmmbr < tmmbr then
    let s1 : CState :=
      { s with obj := { s.obj with increase_timer_start := now, increase_timer_running := true } }
    let r := update_video_quality_from_bitrate env s1 tmmbr 1 true
    ({ r.1 with obj := { r.1.obj with last_tmmbr := tmmbr } }, r.2)
  else if tmmbr < s.obj.last_tmmbr then
    let s1 : CState := { s with obj := { s.obj with increase_timer_running := false } }
    let r := update_video_quality_from_bitrate env s1 tmmbr 1 false
    ({ r.1 with obj := { r.1.obj with last_tmmbr := tmmbr } }, r.2)
  else
    ({ s with obj := { s.obj with last_tmmbr := tmmbr } }, [])

/-- `ms_video_quality_controller_update_from_tmmbr`: the first-feedback
special case (sentinel `-1` and TMMBR below the current required bitrate)
performs one full adjustment, records the TMMBR and returns; every other
call goes through the increase/decrease/equal comparison. -/
def ms_video_quality_controller_update_from_tmmbr (env : Env) (now : Int) (s : CState)
    (tmmbr : Int) : CState × List Effect :=
  if s.obj.last_tmmbr = -1 ∧ tmmbr < env.current_vconf.required_bitrate then
    let r := update_video_quality_from_bitrate env s tmmbr 1 false
    ({ r.1 with obj := { r.1.obj with last_tmmbr := tmmbr } }, r.2)
  else
    tmmbr_compare_branch env now s tmmbr

/-- One event driving the controller: a TMMBR feedback or a timer tick, each
with the state of the external world at that moment and the clock value. -/
inductive Event where
  | feedback (env : Env) (now : Int) (tmmbr : Int)
  | tick (env : Env) (now : Int)

/-- The caller contract of section 4.1 of the design: feedback values are
non-negative; ticks are unconstrained. -/
def Event.nonneg_feedback : Event → Prop
  | .feedback _ _ tmmbr => 0 ≤ tmmbr
  | .tick _ _ => True

/-- Run one event against the controller state. -/
def run_event (s : CState) (e : Event) : CState :=
  match e with
  | .feedback env now tmmbr => (ms_video_quality_controller_update_from_tmmbr env now s tmmbr).1
  | .tick env now => (ms_video_quality_controller_process_timer env now s).1

/-- Run a sequence of events against the controller state. -/
def run_events (s : CState) (es : List Event) : CState := es.foldl run_event s

/-- A 720p candidate configuration, used for concrete evaluations. -/
def cfgA : MSVideoConfiguration :=
  { vsize := { width := 1280, height := 720 }, fps := 30,
    required_bitrate := 1200000, bitrate_limit := 2048000 }

/-- A VGA candidate configuration, used for concrete evaluations. -/
def cfgB : MSVideoConfiguration :=
  { vsize := { width := 640, height := 480 }, fps := 25,
    required_bitrate := 500000, bitrate_limit := 800000 }

/-- A concrete environment: the encoder exposes `[cfgA, cfgB]`, currently
runs `cfgA`, and the ranking collaborators pick by simple bitrate cutoffs. -/
def sampleEnv : Env :=
  { vconf_list := some [cfgA, cfgB]
    current_vconf := cfgA
    cpu_count := 4
    find_best_for_bitrate := fun _ target _ => if 1200000 ≤ target then cfgA else cfgB
    find_best_for_size_and_bitrate := fun _ _ _ bitrate => if 800000 ≤ bitrate then cfgA else cfgB }

/-- A concrete environment whose encoder exposes no configuration list. -/
def emptyEnv : Env :=
  { vconf_list := none
    current_vconf := cfgA
    cpu_count := 4
    find_best_for_bitrate := fun _ _ _ => cfgA
    find_best_for_size_and_bitrate := fun _ _ _ _ => cfgA }

/-- A zeroed stream, as right after stream creation. -/
def stream0 : VideoStream :=
  { sent_vsize := { width := 0, height := 0 }
    preview_vsize := { width := 0, height := 0 }
    forced_fps := 0, configured_fps := 0 }

/-- A freshly created controller paired with a zeroed stream. -/
def s_initial : CState := { obj := ms_video_quality_controller_new, stream := stream0 }

/-- A controller that has tracked a TMMBR of 300000, timer idle. -/
def s_tracking : CState :=
  { obj := { last_tmmbr := 300000, increase_timer_start := 0,
             increase_timer_running := false, last_vsize := { width := 0, height := 0 } }
    stream := stream0 }

/-- A controller tracking 600000 with the increase timer armed at time 0. -/
def s_armed : CState :=
  { obj := { last_tmmbr := 600000, increase_timer_start := 0,
             increase_timer_running := true, last_vsize := { width := 0, height := 0 } }
    stream := stream0 }

/-- A concrete environment whose ranking collaborators always pick the VGA
candidate, whatever the target: the encoder currently runs `cfgA`. -/
def resEnv : Env :=
  { vconf_list := some [cfgA, cfgB]
    current_vconf := cfgA
    cpu_count := 4
    find_best_for_bitrate := fun _ _ _ => cfgB
    find_best_for_size_and_bitrate := fun _ _ _ _ => cfgB }

/-- Modelled from the spec (section 4.1, step 1): the first-feedback branch.
One full `AdjustForBitrate(tmmbr, threshold 1, fpsOnly false)` call, then
`lastBandwidth := tmmbr`, and return (timer untouched). -/
def spec_first_feedback_branch (env : Env) (s : CState) (tmmbr : Int) : CState × List Effect :=
  ({ (update_video_quality_from_bitrate env s tmmbr 1 false).1 with
      obj := { (update_video_quality_from_bitrate env s tmmbr 1 false).1.obj with
                last_tmmbr := tmmbr } },
   (update_video_quality_from_bitrate env s tmmbr 1 false).2)

/-- Modelled from the spec (section 4.1, step 2, increase): arm the cooldown
timer at `now`, run `AdjustForBitrate(tmmbr, threshold 1, fpsOnly true)`,
then `lastBandwidth := tmmbr`. -/
def spec_increase_branch (env : Env) (now : Int) (s : CState) (tmmbr : Int) :
    CState × List Effect :=
  ({ (update_video_quality_from_bitrate env
        { s with obj := { s.obj with increase_timer_start := now, increase_timer_running := true } }
        tmmbr 1 true).1 with
      obj := { (update_video_quality_from_bitrate env
        { s with obj := { s.obj with increase_timer_start := now, increase_timer_running := true } }
        tmmbr 1 true).1.obj with last_tmmbr := tmmbr } },
   (update_video_quality_from_bitrate env
      { s with obj := { s.obj with increase_timer_start := now, increase_timer_running := true } }
      tmmbr 1 true).2)

/-- Modelled from the spec (section 4.1, step 2, decrease): cancel the
cooldown timer, run `AdjustForBitrate(tmmbr, threshold 1, fpsOnly false)`,
then `lastBandwidth := tmmbr`. -/
def spec_decrease_branch (env : Env) (s : CState) (tmmbr : Int) : CState × List Effect :=
  ({ (update_video_quality_from_bitrate env
        { s with obj := { s.obj with increase_timer_running := false } } tmmbr 1 false).1 with
      obj := { (update_video_quality_from_bitrate env
        { s with obj := { s.obj with increase_timer_running := false } } tmmbr 1 false).1.obj with
                last_tmmbr := tmmbr } },
   (update_video_quality_from_bitrate env
      { s with obj := { s.obj with increase_timer_running := false } } tmmbr 1 false).2)

/-- Modelled from the spec (section 4.2): the fired cooldown performs one
`AdjustForBitrate(lastBandwidth, threshold 1.3, fpsOnly false)` call and
then disarms the timer. -/
def spec_timer_fired (env : Env) (s : CState) : CState × List Effect :=
  ({ (update_video_quality_from_bitrate env s s.obj.last_tmmbr INCREASE_BITRATE_THRESHOLD false).1 with
      obj := { (update_video_quality_from_bitrate env s s.obj.last_tmmbr
                  INCREASE_BITRATE_THRESHOLD false).1.obj with increase_timer_running := false } },
   (update_video_quality_from_bitrate env s s.obj.last_tmmbr INCREASE_BITRATE_THRESHOLD false).2)

/-- Modelled from the spec (section 4.3, step 3b): the state after a genuine
resolution change to candidate `best`: stream output and preview resolution
and forced fps take the candidate's values, and `lastRequestedSize` becomes
the candidate's resolution. -/
def spec_resolution_change (s : CState) (best : MSVideoConfiguration) : CState :=
  { obj := { s.obj with last_vsize := best.vsize }
    stream := { s.stream with
                sent_vsize := best.vsize
                preview_vsize := best.vsize
                forced_fps := best.fps } }

/-- Int form of the C conditional assignment: `a < b ? a : b` is `min a b`. -/
theorem ite_lt_eq_min (a b : Int) : (if a < b then a else b) = min a b := by
  rcases le_or_lt b a with h | h
  · rw [if_neg (not_lt.mpr h), min_eq_right h]
  · rw [if_pos h, min_eq_left h.le]

/-- The tuning step never touches the controller object. -/
theorem tuning_step_obj (env : Env) (s : CState) (b : Int)
    (l : List MSVideoConfiguration) (cv : MSVideoConfiguration) (e0 : List Effect) :
    (tuning_step env s b l cv e0).1.obj = s.obj := by
  unfold tuning_step
  dsimp only
  split <;> rfl

/-- The tuning step changes no stream field except `configured_fps`. -/
theorem tuning_step_stream (env : Env) (s : CState) (b : Int)
    (l : List MSVideoConfiguration) (cv : MSVideoConfiguration) (e0 : List Effect) :
    (tuning_step env s b l cv e0).1.stream.sent_vsize = s.stream.sent_vsize ∧
    (tuning_step env s b l cv e0).1.stream.preview_vsize = s.stream.preview_vsize ∧
    (tuning_step env s b l cv e0).1.stream.forced_fps = s.stream.forced_fps := by
  unfold tuning_step
  dsimp only
  split <;> exact ⟨rfl, rfl, rfl⟩

/-- Trace effects already accumulated survive the tuning step. -/
theorem tuning_step_trace_mono (env : Env) (s : CState) (b : Int)
    (l : List MSVideoConfiguration) (cv : MSVideoConfiguration) (e0 : List Effect)
    (e : Effect) (h : e ∈ e0) : e ∈ (tuning_step env s b l cv e0).2 := by
  unfold tuning_step
  dsimp only
  split <;> simp [List.mem_append] <;> tauto

/-- Every effect the tuning step adds to the trace is either the
fixed-resolution ranking query (at the literal bitrate and the current
resolution), a source fps push, or an encoder configuration application
whose required bitrate is the min-clamp of the bitrate and the selected
candidate's limit. -/
theorem mem_tuning_step_trace (env : Env) (s : CState) (b : Int)
    (l : List MSVideoConfiguration) (cv : MSVideoConfiguration) (e0 : List Effect)
    (e : Effect) (h : e ∈ (tuning_step env s b l cv e0).2) :
    e ∈ e0 ∨
    e = Effect.find_best_for_size_and_bitrate cv.vsize env.cpu_count b ∨
    (∃ f, e = Effect.set_fps f) ∨
    (∃ v, e = Effect.set_configuration v ∧
      v.required_bitrate =
        min b (env.find_best_for_size_and_bitrate l cv.vsize env.cpu_count b).bitrate_limit) := by
  revert h
  unfold tuning_step
  dsimp only
  split <;> intro h <;> simp only [List.mem_append, List.mem_singleton] at h
  · rcases h with (h | h) | h
    · exact Or.inl h
    · exact Or.inr (Or.inl h)
    · refine Or.inr (Or.inr (Or.inr ⟨_, h, ?_⟩))
      simp [ite_lt_eq_min]
  · rcases h with ((h | h) | h) | h
    · exact Or.inl h
    · exact Or.inr (Or.inl h)
    · exact Or.inr (Or.inr (Or.inl ⟨_, h⟩))
    · refine Or.inr (Or.inr (Or.inr ⟨_, h, ?_⟩))
      simp [ite_lt_eq_min]

/-- `update_video_quality_from_bitrate` writes no controller field other
than `last_vsize`: the last TMMBR and the timer state are preserved. -/
theorem update_obj_fields (env : Env) (s : CState) (b : Int) (th : ℚ) (fo : Bool) :
    (update_video_quality_from_bitrate env s b th fo).1.obj.last_tmmbr = s.obj.last_tmmbr ∧
    (update_video_quality_from_bitrate env s b th fo).1.obj.increase_timer_running =
      s.obj.increase_timer_running ∧
    (update_video_quality_from_bitrate env s b th fo).1.obj.increase_timer_start =
      s.obj.increase_timer_start := by
  unfold update_video_quality_from_bitrate
  cases h : env.vconf_list with
  | none => exact ⟨rfl, rfl, rfl⟩
  | some l =>
    dsimp only
    split
    · rw [tuning_step_obj]
      exact ⟨rfl, rfl, rfl⟩
    · split
      · exact ⟨rfl, rfl, rfl⟩
      · rw [tuning_step_obj]
        exact ⟨rfl, rfl, rfl⟩

/-- With `update_only_fps = true` the controller object is untouched. -/
theorem update_true_obj (env : Env) (s : CState) (b : Int) (th : ℚ) :
    (update_video_quality_from_bitrate env s b th true).1.obj = s.obj := by
  unfold update_video_quality_from_bitrate
  cases h : env.vconf_list with
  | none => rfl
  | some l => exact tuning_step_obj env s b l env.current_vconf []

/-- With `update_only_fps = true` no stream resolution field changes. -/
theorem update_true_stream (env : Env) (s : CState) (b : Int) (th : ℚ) :
    (update_video_quality_from_bitrate env s b th true).1.stream.sent_vsize =
      s.stream.sent_vsize ∧
    (update_video_quality_from_bitrate env s b th true).1.stream.preview_vsize =
      s.stream.preview_vsize ∧
    (update_video_quality_from_bitrate env s b th true).1.stream.forced_fps =
      s.stream.forced_fps := by
  unfold update_video_quality_from_bitrate
  cases h : env.vconf_list with
  | none => exact ⟨rfl, rfl, rfl⟩
  | some l => exact tuning_step_stream env s b l env.current_vconf []

/-- With `update_only_fps = true` the only effects are the fixed-resolution
ranking query, a source fps push, or an encoder configuration application:
no resolution search and no camera switch happen. -/
theorem update_true_trace (env : Env) (s : CState) (b : Int) (th : ℚ) (e : Effect)
    (h : e ∈ (update_video_quality_from_bitrate env s b th true).2) :
    e = Effect.find_best_for_size_and_bitrate env.current_vconf.vsize env.cpu_count b ∨
    (∃ f, e = Effect.set_fps f) ∨
    (∃ v, e = Effect.set_configuration v) := by
  revert h
  unfold update_video_quality_from_bitrate
  cases hl : env.vconf_list with
  | none => intro h; exact absurd h (List.not_mem_nil e)
  | some l =>
    intro h
    rcases mem_tuning_step_trace env s b l env.current_vconf [] e h with
      h0 | h1 | h2 | h3
    · exact absurd h0 (List.not_mem_nil e)
    · exact Or.inl h1
    · exact Or.inr (Or.inl h2)
    · rcases h3 with ⟨v, hv, _⟩
      exact Or.inr (Or.inr ⟨v, hv⟩)

/-- Every effect of a full `update_video_quality_from_bitrate` call: the
resolution-search query at the truncated quotient of bitrate by threshold,
the camera switch, the fixed-resolution query at the literal bitrate, a
source fps push, or a clamped encoder configuration application. -/
theorem mem_update_trace (env : Env) (s : CState) (b : Int) (th : ℚ) (fo : Bool)
    (l : List MSVideoConfiguration) (hl : env.vconf_list = some l) (e : Effect)
    (h : e ∈ (update_video_quality_from_bitrate env s b th fo).2) :
    e = Effect.find_best_for_bitrate (ctrunc ((b : ℚ) / th)) env.cpu_count ∨
    e = Effect.change_camera_skip_bitrate ∨
    e = Effect.find_best_for_size_and_bitrate env.current_vconf.vsize env.cpu_count b ∨
    (∃ f, e = Effect.set_fps f) ∨
    (∃ v, e = Effect.set_configuration v ∧
      v.required_bitrate =
        min b (env.find_best_for_size_and_bitrate l env.current_vconf.vsize
                env.cpu_count b).bitrate_limit) := by
  revert h
  unfold update_video_quality_from_bitrate
  rw [hl]
  dsimp only
  split
  · intro h
    rcases mem_tuning_step_trace env s b l env.current_vconf [] e h with h0 | h1 | h2 | h3
    · exact absurd h0 (List.not_mem_nil e)
    · exact Or.inr (Or.inr (Or.inl h1))
    · exact Or.inr (Or.inr (Or.inr (Or.inl h2)))
    · exact Or.inr (Or.inr (Or.inr (Or.inr h3)))
  · split
    · intro h
      simp only [List.mem_append, List.mem_singleton] at h
      rcases h with h | h
      · exact Or.inl h
      · exact Or.inr (Or.inl h)
    · intro h
      rcases mem_tuning_step_trace env s b l env.current_vconf _ e h with h0 | h1 | h2 | h3
      · simp only [List.mem_singleton] at h0
        exact Or.inl h0
      · exact Or.inr (Or.inr (Or.inl h1))
      · exact Or.inr (Or.inr (Or.inr (Or.inl h2)))
      · exact Or.inr (Or.inr (Or.inr (Or.inr h3)))

/-- A full call (with a configuration list present) always performs the
resolution-search query, at the truncated quotient target. -/
theorem update_false_queries_resolution_search (env : Env) (s : CState) (b : Int) (th : ℚ)
    (l : List MSVideoConfiguration) (hl : env.vconf_list = some l) :
    Effect.find_best_for_bitrate (ctrunc ((b : ℚ) / th)) env.cpu_count ∈
      (update_video_quality_from_bitrate env s b th false).2 := by
  unfold update_video_quality_from_bitrate
  rw [hl]
  dsimp only
  split
  · next hc => exact absurd hc (by decide)
  · split
    · simp
    · exact tuning_step_trace_mono env s b l env.current_vconf _ _ (by simp)

/-- With `update_only_fps = true` no camera switch is performed. -/
theorem update_true_no_camera (env : Env) (s : CState) (b : Int) (th : ℚ) :
    Effect.change_camera_skip_bitrate ∉
      (update_video_quality_from_bitrate env s b th true).2 := by
  intro h
  rcases update_true_trace env s b th _ h with h1 | ⟨f, h1⟩ | ⟨v, h1⟩ <;>
    exact Effect.noConfusion h1

/-- With `update_only_fps = true` the resolution-search collaborator is not
queried at all. -/
theorem update_true_no_resolution_query (env : Env) (s : CState) (b : Int) (th : ℚ)
    (t c : Int) :
    Effect.find_best_for_bitrate t c ∉
      (update_video_quality_from_bitrate env s b th true).2 := by
  intro h
  rcases update_true_trace env s b th _ h with h1 | ⟨f, h1⟩ | ⟨v, h1⟩ <;>
    exact Effect.noConfusion h1

/-- Every feedback call ends with `last_tmmbr` equal to the TMMBR passed in. -/
theorem last_tmmbr_after_feedback (env : Env) (now : Int) (s : CState) (tmmbr : Int) :
    (ms_video_quality_controller_update_from_tmmbr env now s tmmbr).1.obj.last_tmmbr = tmmbr := by
  unfold ms_video_quality_controller_update_from_tmmbr tmmbr_compare_branch
  split
  · rfl
  · split
    · rfl
    · split
      · rfl
      · rfl

/-- The timer handler never writes `last_tmmbr`. -/
theorem process_timer_last_tmmbr (env : Env) (now : Int) (s : CState) :
    (ms_video_quality_controller_process_timer env now s).1.obj.last_tmmbr =
      s.obj.last_tmmbr := by
  unfold ms_video_quality_controller_process_timer
  split
  · split
    · exact (update_obj_fields env s s.obj.last_tmmbr INCREASE_BITRATE_THRESHOLD false).1
    · rfl
  · rfl

/-- The timer handler never writes the timer's start time. -/
theorem process_timer_start (env : Env) (now : Int) (s : CState) :
    (ms_video_quality_controller_process_timer env now s).1.obj.increase_timer_start =
      s.obj.increase_timer_start := by
  unfold ms_video_quality_controller_process_timer
  split
  · split
    · exact (update_obj_fields env s s.obj.last_tmmbr INCREASE_BITRATE_THRESHOLD false).2.2
    · rfl
  · rfl

/-- Every effect of a tick is an effect of the threshold-1.3 adjustment at
the recorded TMMBR (a non-fired tick has no effects at all). -/
theorem process_timer_trace_sub (env : Env) (now : Int) (s : CState) (e : Effect)
    (h : e ∈ (ms_video_quality_controller_process_timer env now s).2) :
    e ∈ (update_video_quality_from_bitrate env s s.obj.last_tmmbr
          INCREASE_BITRATE_THRESHOLD false).2 := by
  revert h
  unfold ms_video_quality_controller_process_timer
  split
  · split
    · exact id
    · intro h; exact absurd h (List.not_mem_nil e)
  · intro h; exact absurd h (List.not_mem_nil e)

/-- Claim C6: after every `ms_video_quality_controller_update_from_tmmbr`
call, whichever branch was taken (first-feedback, increase, decrease or
equal), the controller's `last_tmmbr` field equals the TMMBR value just
passed in, for all states and hence all sequences of calls. -/
theorem claim_feedback_records_tmmbr (env : Env) (now : Int) (s : CState) (tmmbr : Int) :
    (ms_video_quality_controller_update_from_tmmbr env now s tmmbr).1.obj.last_tmmbr = tmmbr :=
  last_tmmbr_after_feedback env now s tmmbr

/-- Claim C8: when the encoder's configuration-list query yields no list,
`update_video_quality_from_bitrate` is a complete silent no-op: the state
(controller fields, timer, stream) is unchanged and no collaborator call is
made (empty effect trace). -/
theorem claim_empty_config_list_noop (env : Env) (s : CState) (b : Int) (th : ℚ)
    (fo : Bool) (h : env.vconf_list = none) :
    update_video_quality_from_bitrate env s b th fo = (s, []) := by
  unfold update_video_quality_from_bitrate
  rw [h]

/-- Witness for claim C8 at a concrete listless environment. -/
theorem claim_empty_config_list_noop_witness :
    emptyEnv.vconf_list = none ∧
    update_video_quality_from_bitrate emptyEnv s_tracking 300000 1 false = (s_tracking, []) :=
  ⟨rfl, claim_empty_config_list_noop emptyEnv s_tracking 300000 1 false rfl⟩

/-- Claim C1: for a controller with `last_tmmbr ≠ -1`, feedback above the
last TMMBR takes the increase branch: the timer start is set to `now`, the
timer is armed, the call behaves exactly as the spec's increase branch
(`AdjustForBitrate(tmmbr, threshold 1, fpsOnly true)` after arming), and no
resolution change is requested: no camera switch, no resolution-search
query, and the output, preview and last-requested resolutions are all
unchanged. -/
theorem claim_increase_branch_fps_only (env : Env) (now : Int) (s : CState) (tmmbr : Int)
    (h1 : s.obj.last_tmmbr ≠ -1) (h2 : s.obj.last_tmmbr < tmmbr) :
    ms_video_quality_controller_update_from_tmmbr env now s tmmbr =
      spec_increase_branch env now s tmmbr ∧
    (ms_video_quality_controller_update_from_tmmbr env now s tmmbr).1.obj.increase_timer_start
      = now ∧
    (ms_video_quality_controller_update_from_tmmbr env now s tmmbr).1.obj.increase_timer_running
      = true ∧
    Effect.change_camera_skip_bitrate ∉
      (ms_video_quality_controller_update_from_tmmbr env now s tmmbr).2 ∧
    (∀ t c, Effect.find_best_for_bitrate t c ∉
      (ms_video_quality_controller_update_from_tmmbr env now s tmmbr).2) ∧
    (ms_video_quality_controller_update_from_tmmbr env now s tmmbr).1.stream.sent_vsize
      = s.stream.sent_vsize ∧
    (ms_video_quality_controller_update_from_tmmbr env now s tmmbr).1.stream.preview_vsize
      = s.stream.preview_vsize ∧
    (ms_video_quality_controller_update_from_tmmbr env now s tmmbr).1.obj.last_vsize
      = s.obj.last_vsize := by
  have hE : ms_video_quality_controller_update_from_tmmbr env now s tmmbr =
      spec_increase_branch env now s tmmbr := by
    unfold ms_video_quality_controller_update_from_tmmbr
    rw [if_neg (fun hc => h1 hc.1)]
    unfold tmmbr_compare_branch
    rw [if_pos h2]
    rfl
  have hobj := update_true_obj env
    { s with obj := { s.obj with increase_timer_start := now, increase_timer_running := true } }
    tmmbr 1
  have hstr := update_true_stream env
    { s with obj := { s.obj with increase_timer_start := now, increase_timer_running := true } }
    tmmbr 1
  refine ⟨hE, ?_, ?_, ?_, ?_, ?_, ?_, ?_⟩ <;> rw [hE] <;> unfold spec_increase_branch
  · rw [hobj]
  · rw [hobj]
  · exact update_true_no_camera env _ tmmbr 1
  · intro t c
    exact update_true_no_resolution_query env _ tmmbr 1 t c
  · exact hstr.1
  · exact hstr.2.1
  · rw [hobj]

/-- Witness for claim C1: a concrete increase event (300000 → 600000). -/
theorem claim_increase_branch_fps_only_witness :
    (s_tracking.obj.last_tmmbr ≠ -1 ∧ s_tracking.obj.last_tmmbr < 600000) ∧
    (ms_video_quality_controller_update_from_tmmbr sampleEnv 5 s_tracking 600000 =
        spec_increase_branch sampleEnv 5 s_tracking 600000 ∧
      (ms_video_quality_controller_update_from_tmmbr sampleEnv 5 s_tracking
          600000).1.obj.increase_timer_start = 5 ∧
      (ms_video_quality_controller_update_from_tmmbr sampleEnv 5 s_tracking
          600000).1.obj.increase_timer_running = true ∧
      Effect.change_camera_skip_bitrate ∉
        (ms_video_quality_controller_update_from_tmmbr sampleEnv 5 s_tracking 600000).2 ∧
      (∀ t c, Effect.find_best_for_bitrate t c ∉
        (ms_video_quality_controller_update_from_tmmbr sampleEnv 5 s_tracking 600000).2) ∧
      (ms_video_quality_controller_update_from_tmmbr sampleEnv 5 s_tracking
          600000).1.stream.sent_vsize = s_tracking.stream.sent_vsize ∧
      (ms_video_quality_controller_update_from_tmmbr sampleEnv 5 s_tracking
          600000).1.stream.preview_vsize = s_tracking.stream.preview_vsize ∧
      (ms_video_quality_controller_update_from_tmmbr sampleEnv 5 s_tracking
          600000).1.obj.last_vsize = s_tracking.obj.last_vsize) :=
  ⟨⟨by decide, by decide⟩,
   claim_increase_branch_fps_only sampleEnv 5 s_tracking 600000 (by decide) (by decide)⟩

/-- Claim C3: for a controller with sentinel `last_tmmbr = -1`: if the
incoming TMMBR is strictly below the current configuration's required
bitrate, the call is exactly the spec's first-feedback branch (one
`AdjustForBitrate(tmmbr, threshold 1, fpsOnly false)` call, then
`last_tmmbr := tmmbr`, returning with the timer untouched); if the TMMBR is
at or above it, no first-feedback adjustment occurs and the call is exactly
the increase/decrease/equal comparison against the sentinel. -/
theorem claim_first_feedback_gating (env : Env) (now : Int) (s : CState) (tmmbr : Int)
    (h : s.obj.last_tmmbr = -1) :
    (tmmbr < env.current_vconf.required_bitrate →
      ms_video_quality_controller_update_from_tmmbr env now s tmmbr =
        spec_first_feedback_branch env s tmmbr ∧
      (ms_video_quality_controller_update_from_tmmbr env now s
          tmmbr).1.obj.increase_timer_running = s.obj.increase_timer_running ∧
      (ms_video_quality_controller_update_from_tmmbr env now s
          tmmbr).1.obj.increase_timer_start = s.obj.increase_timer_start) ∧
    (env.current_vconf.required_bitrate ≤ tmmbr →
      ms_video_quality_controller_update_from_tmmbr env now s tmmbr =
        tmmbr_compare_branch env now s tmmbr) := by
  constructor
  · intro hlt
    have hE : ms_video_quality_controller_update_from_tmmbr env now s tmmbr =
        spec_first_feedback_branch env s tmmbr := by
      unfold ms_video_quality_controller_update_from_tmmbr
      rw [if_pos ⟨h, hlt⟩]
      rfl
    refine ⟨hE, ?_, ?_⟩ <;> rw [hE] <;> unfold spec_first_feedback_branch
    · exact (update_obj_fields env s tmmbr 1 false).2.1
    · exact (update_obj_fields env s tmmbr 1 false).2.2
  · intro hge
    unfold ms_video_quality_controller_update_from_tmmbr
    rw [if_neg (fun hc => absurd hc.2 (not_lt.mpr hge))]

/-- Witness for claim C3: an under-provisioned first feedback (300000 below
the required 1200000). -/
theorem claim_first_feedback_gating_witness :
    s_initial.obj.last_tmmbr = -1 ∧
    ((300000 < sampleEnv.current_vconf.required_bitrate →
      ms_video_quality_controller_update_from_tmmbr sampleEnv 0 s_initial 300000 =
        spec_first_feedback_branch sampleEnv s_initial 300000 ∧
      (ms_video_quality_controller_update_from_tmmbr sampleEnv 0 s_initial
          300000).1.obj.increase_timer_running = s_initial.obj.increase_timer_running ∧
      (ms_video_quality_controller_update_from_tmmbr sampleEnv 0 s_initial
          300000).1.obj.increase_timer_start = s_initial.obj.increase_timer_start) ∧
    (sampleEnv.current_vconf.required_bitrate ≤ 300000 →
      ms_video_quality_controller_update_from_tmmbr sampleEnv 0 s_initial 300000 =
        tmmbr_compare_branch sampleEnv 0 s_initial 300000)) :=
  ⟨by decide, claim_first_feedback_gating sampleEnv 0 s_initial 300000 (by decide)⟩

/-- Claim C2: for a controller whose increase timer is armed at time `T`:
a tick strictly before `T + 10` performs no adjustment and leaves the timer
armed; a tick at or after `T + 10` is exactly one
`AdjustForBitrate(last_tmmbr, threshold 1.3, fpsOnly false)` call followed
by disarming the timer; a decrease feedback event disarms the timer and is
exactly the spec's decrease branch (so no timer-path adjustment); and a tick
with the timer idle does nothing. -/
theorem claim_cooldown_correctness (env : Env) (s s2 : CState)
    (T now1 now2 now3 now4 tmmbr : Int)
    (harm : s.obj.increase_timer_running = true) (hT : s.obj.increase_timer_start = T) :
    (now1 < T + INCREASE_TIMER_DELAY →
       ms_video_quality_controller_process_timer env now1 s = (s, []) ∧
       (ms_video_quality_controller_process_timer env now1 s).1.obj.increase_timer_running
         = true) ∧
    (T + INCREASE_TIMER_DELAY ≤ now2 →
       ms_video_quality_controller_process_timer env now2 s = spec_timer_fired env s ∧
       (ms_video_quality_controller_process_timer env now2 s).1.obj.increase_timer_running
         = false) ∧
    (s.obj.last_tmmbr ≠ -1 → tmmbr < s.obj.last_tmmbr →
       ms_video_quality_controller_update_from_tmmbr env now3 s tmmbr =
         spec_decrease_branch env s tmmbr ∧
       (ms_video_quality_controller_update_from_tmmbr env now3 s
           tmmbr).1.obj.increase_timer_running = false) ∧
    (s2.obj.increase_timer_running = false →
       ms_video_quality_controller_process_timer env now4 s2 = (s2, [])) := by
  refine ⟨?_, ?_, ?_, ?_⟩
  · intro hlt
    have hE : ms_video_quality_controller_process_timer env now1 s = (s, []) := by
      unfold ms_video_quality_controller_process_timer
      rw [if_pos harm, if_neg (by rw [hT]; omega)]
    exact ⟨hE, by rw [hE]; exact harm⟩
  · intro hge
    have hE : ms_video_quality_controller_process_timer env now2 s =
        spec_timer_fired env s := by
      unfold ms_video_quality_controller_process_timer
      rw [if_pos harm, if_pos (by rw [hT]; omega)]
      rfl
    refine ⟨hE, ?_⟩
    rw [hE]
    rfl
  · intro hne hlt
    have hE : ms_video_quality_controller_update_from_tmmbr env now3 s tmmbr =
        spec_decrease_branch env s tmmbr := by
      unfold ms_video_quality_controller_update_from_tmmbr
      rw [if_neg (fun hc => hne hc.1)]
      unfold tmmbr_compare_branch
      rw [if_neg (lt_asymm hlt), if_pos hlt]
      rfl
    refine ⟨hE, ?_⟩
    rw [hE]
    unfold spec_decrease_branch
    exact (update_obj_fields env _ tmmbr 1 false).2.1
  · intro hidle
    unfold ms_video_quality_controller_process_timer
    rw [if_neg (by simp [hidle])]

/-- Witness for claim C2: a timer armed at 0, ticks at 5 and 12, a decrease
to 400000, and an idle-timer tick at 20. -/
theorem claim_cooldown_correctness_witness :
    (s_armed.obj.increase_timer_running = true ∧ s_armed.obj.increase_timer_start = 0) ∧
    ((5 < 0 + INCREASE_TIMER_DELAY →
       ms_video_quality_controller_process_timer sampleEnv 5 s_armed = (s_armed, []) ∧
       (ms_video_quality_controller_process_timer sampleEnv 5
           s_armed).1.obj.increase_timer_running = true) ∧
    (0 + INCREASE_TIMER_DELAY ≤ 12 →
       ms_video_quality_controller_process_timer sampleEnv 12 s_armed =
         spec_timer_fired sampleEnv s_armed ∧
       (ms_video_quality_controller_process_timer sampleEnv 12
           s_armed).1.obj.increase_timer_running = false) ∧
    (s_armed.obj.last_tmmbr ≠ -1 → 400000 < s_armed.obj.last_tmmbr →
       ms_video_quality_controller_update_from_tmmbr sampleEnv 7 s_armed 400000 =
         spec_decrease_branch sampleEnv s_armed 400000 ∧
       (ms_video_quality_controller_update_from_tmmbr sampleEnv 7 s_armed
           400000).1.obj.increase_timer_running = false) ∧
    (s_tracking.obj.increase_timer_running = false →
       ms_video_quality_controller_process_timer sampleEnv 20 s_tracking =
         (s_tracking, []))) :=
  ⟨⟨by decide, by decide⟩,
   claim_cooldown_correctness sampleEnv s_armed s_tracking 0 5 12 7 20 400000
     (by decide) (by decide)⟩

/-- Claim C4: in a full (`fpsOnly = false`) call, when the selected best
candidate's resolution differs from the last requested size and its pixel
count differs from the current configuration's, the call applies the
candidate's resolution and fps to the stream, triggers the camera-switch
side effect, records the candidate's resolution as last requested, and
returns immediately: the trace is exactly the resolution-search query
followed by the camera switch, with no fps push, no encoder configuration
application and no fixed-resolution query in the same call. -/
theorem claim_resolution_change_early_return (env : Env) (s : CState) (b : Int) (th : ℚ)
    (l : List MSVideoConfiguration) (hl : env.vconf_list = some l)
    (hsz : ms_video_size_equal s.obj.last_vsize
        (env.find_best_for_bitrate l (ctrunc ((b : ℚ) / th)) env.cpu_count).vsize = false)
    (hpx : (env.find_best_for_bitrate l (ctrunc ((b : ℚ) / th)) env.cpu_count).vsize.width *
        (env.find_best_for_bitrate l (ctrunc ((b : ℚ) / th)) env.cpu_count).vsize.height ≠
        env.current_vconf.vsize.width * env.current_vconf.vsize.height) :
    update_video_quality_from_bitrate env s b th false =
      (spec_resolution_change s (env.find_best_for_bitrate l (ctrunc ((b : ℚ) / th)) env.cpu_count),
       [Effect.find_best_for_bitrate (ctrunc ((b : ℚ) / th)) env.cpu_count,
        Effect.change_camera_skip_bitrate]) ∧
    (∀ f, Effect.set_fps f ∉ (update_video_quality_from_bitrate env s b th false).2) ∧
    (∀ v, Effect.set_configuration v ∉ (update_video_quality_from_bitrate env s b th false).2) ∧
    (∀ sz c b2, Effect.find_best_for_size_and_bitrate sz c b2 ∉
      (update_video_quality_from_bitrate env s b th false).2) := by
  have hE : update_video_quality_from_bitrate env s b th false =
      (spec_resolution_change s (env.find_best_for_bitrate l (ctrunc ((b : ℚ) / th)) env.cpu_count),
       [Effect.find_best_for_bitrate (ctrunc ((b : ℚ) / th)) env.cpu_count,
        Effect.change_camera_skip_bitrate]) := by
    unfold update_video_quality_from_bitrate
    rw [hl]
    dsimp only
    rw [if_neg (by decide : ¬(false = true)), if_pos ⟨hsz, hpx⟩]
    rfl
  refine ⟨hE, ?_, ?_, ?_⟩
  · intro f h
    rw [hE] at h
    simp at h
  · intro v h
    rw [hE] at h
    simp at h
  · intro sz c b2 h
    rw [hE] at h
    simp at h

/-- Witness for claim C4: a full adjustment whose selected candidate is the
VGA configuration while the encoder currently runs 720p. -/
theorem claim_resolution_change_early_return_witness :
    (resEnv.vconf_list = some [cfgA, cfgB] ∧
     ms_video_size_equal s_tracking.obj.last_vsize
       (resEnv.find_best_for_bitrate [cfgA, cfgB] (ctrunc ((300000 : ℚ) / 1))
         resEnv.cpu_count).vsize = false ∧
     (resEnv.find_best_for_bitrate [cfgA, cfgB] (ctrunc ((300000 : ℚ) / 1))
         resEnv.cpu_count).vsize.width *
       (resEnv.find_best_for_bitrate [cfgA, cfgB] (ctrunc ((300000 : ℚ) / 1))
         resEnv.cpu_count).vsize.height ≠
       resEnv.current_vconf.vsize.width * resEnv.current_vconf.vsize.height) ∧
    (update_video_quality_from_bitrate resEnv s_tracking 300000 1 false =
      (spec_resolution_change s_tracking
        (resEnv.find_best_for_bitrate [cfgA, cfgB] (ctrunc ((300000 : ℚ) / 1))
          resEnv.cpu_count),
       [Effect.find_best_for_bitrate (ctrunc ((300000 : ℚ) / 1)) resEnv.cpu_count,
        Effect.change_camera_skip_bitrate]) ∧
    (∀ f, Effect.set_fps f ∉
      (update_video_quality_from_bitrate resEnv s_tracking 300000 1 false).2) ∧
    (∀ v, Effect.set_configuration v ∉
      (update_video_quality_from_bitrate resEnv s_tracking 300000 1 false).2) ∧
    (∀ sz c b2, Effect.find_best_for_size_and_bitrate sz c b2 ∉
      (update_video_quality_from_bitrate resEnv s_tracking 300000 1 false).2)) :=
  ⟨⟨rfl, by decide, by decide⟩,
   claim_resolution_change_early_return resEnv s_tracking 300000 1 [cfgA, cfgB]
     rfl (by decide) (by decide)⟩

/-- Claim C5: every encoder configuration applied by
`update_video_quality_from_bitrate` carries a required bitrate equal to
`min bitrate candidateLimit`, where the candidate is the one selected by the
fixed-resolution search at the literal bitrate: the applied required bitrate
never exceeds the raw feedback bitrate nor the candidate's limit. -/
theorem claim_bitrate_clamp (env : Env) (s : CState) (b : Int) (th : ℚ) (fo : Bool)
    (l : List MSVideoConfiguration) (hl : env.vconf_list = some l) :
    ∀ v, Effect.set_configuration v ∈
        (update_video_quality_from_bitrate env s b th fo).2 →
      v.required_bitrate =
        min b (env.find_best_for_size_and_bitrate l env.current_vconf.vsize
                env.cpu_count b).bitrate_limit ∧
      v.required_bitrate ≤ b ∧
      v.required_bitrate ≤
        (env.find_best_for_size_and_bitrate l env.current_vconf.vsize
          env.cpu_count b).bitrate_limit := by
  intro v hv
  rcases mem_update_trace env s b th fo l hl _ hv with h | h | h | ⟨f, h⟩ | ⟨w, hw, hreq⟩
  · exact Effect.noConfusion h
  · exact Effect.noConfusion h
  · exact Effect.noConfusion h
  · exact Effect.noConfusion h
  · injection hw with h'
    subst h'
    exact ⟨hreq, by rw [hreq]; exact min_le_left _ _, by rw [hreq]; exact min_le_right _ _⟩

/-- Witness for claim C5 at a concrete fps-only adjustment. -/
theorem claim_bitrate_clamp_witness :
    sampleEnv.vconf_list = some [cfgA, cfgB] ∧
    (∀ v, Effect.set_configuration v ∈
        (update_video_quality_from_bitrate sampleEnv s_tracking 300000 1 true).2 →
      v.required_bitrate =
        min 300000 (sampleEnv.find_best_for_size_and_bitrate [cfgA, cfgB]
                sampleEnv.current_vconf.vsize sampleEnv.cpu_count 300000).bitrate_limit ∧
      v.required_bitrate ≤ 300000 ∧
      v.required_bitrate ≤
        (sampleEnv.find_best_for_size_and_bitrate [cfgA, cfgB]
          sampleEnv.current_vconf.vsize sampleEnv.cpu_count 300000).bitrate_limit) :=
  ⟨rfl, claim_bitrate_clamp sampleEnv s_tracking 300000 1 true [cfgA, cfgB] rfl⟩

/-- Claim C9: in a full adjustment the resolution-search collaborator is
queried exactly at the truncated quotient of the bitrate by the threshold,
while every fixed-resolution query receives the literal bitrate and the
current resolution; on the timer path the division by 1.3 likewise applies
only to the resolution search, every fixed-resolution query of a tick
receiving the recorded TMMBR itself. -/
theorem claim_threshold_division (env : Env) (now : Int) (s : CState) (b : Int) (th : ℚ)
    (l : List MSVideoConfiguration) (hl : env.vconf_list = some l) :
    Effect.find_best_for_bitrate (ctrunc ((b : ℚ) / th)) env.cpu_count ∈
      (update_video_quality_from_bitrate env s b th false).2 ∧
    (∀ t c, Effect.find_best_for_bitrate t c ∈
        (update_video_quality_from_bitrate env s b th false).2 →
        t = ctrunc ((b : ℚ) / th)) ∧
    (∀ sz c b2, Effect.find_best_for_size_and_bitrate sz c b2 ∈
        (update_video_quality_from_bitrate env s b th false).2 →
        b2 = b ∧ sz = env.current_vconf.vsize) ∧
    (∀ t c, Effect.find_best_for_bitrate t c ∈
        (ms_video_quality_controller_process_timer env now s).2 →
        t = ctrunc ((s.obj.last_tmmbr : ℚ) / INCREASE_BITRATE_THRESHOLD)) ∧
    (∀ sz c b2, Effect.find_best_for_size_and_bitrate sz c b2 ∈
        (ms_video_quality_controller_process_timer env now s).2 →
        b2 = s.obj.last_tmmbr) := by
  refine ⟨update_false_queries_resolution_search env s b th l hl, ?_, ?_, ?_, ?_⟩
  · intro t c h
    rcases mem_update_trace env s b th false l hl _ h with h | h | h | ⟨f, h⟩ | ⟨w, hw, _⟩
    · injection h with h1 h2
    · exact Effect.noConfusion h
    · exact Effect.noConfusion h
    · exact Effect.noConfusion h
    · exact Effect.noConfusion hw
  · intro sz c b2 h
    rcases mem_update_trace env s b th false l hl _ h with h | h | h | ⟨f, h⟩ | ⟨w, hw, _⟩
    · exact Effect.noConfusion h
    · exact Effect.noConfusion h
    · injection h with h1 h2 h3
      exact ⟨h3, h1⟩
    · exact Effect.noConfusion h
    · exact Effect.noConfusion hw
  · intro t c h
    have h2 := process_timer_trace_sub env now s _ h
    rcases mem_update_trace env s s.obj.last_tmmbr INCREASE_BITRATE_THRESHOLD false l hl _ h2
      with h | h | h | ⟨f, h⟩ | ⟨w, hw, _⟩
    · injection h with h1 _
    · exact Effect.noConfusion h
    · exact Effect.noConfusion h
    · exact Effect.noConfusion h
    · exact Effect.noConfusion hw
  · intro sz c b2 h
    have h2 := process_timer_trace_sub env now s _ h
    rcases mem_update_trace env s s.obj.last_tmmbr INCREASE_BITRATE_THRESHOLD false l hl _ h2
      with h | h | h | ⟨f, h⟩ | ⟨w, hw, _⟩
    · exact Effect.noConfusion h
    · exact Effect.noConfusion h
    · injection h with h1 h2 h3
    · exact Effect.noConfusion h
    · exact Effect.noConfusion hw

/-- Witness for claim C9 at a concrete full adjustment and tick. -/
theorem claim_threshold_division_witness :
    sampleEnv.vconf_list = some [cfgA, cfgB] ∧
    (Effect.find_best_for_bitrate (ctrunc ((300000 : ℚ) / 1)) sampleEnv.cpu_count ∈
      (update_video_quality_from_bitrate sampleEnv s_armed 300000 1 false).2 ∧
    (∀ t c, Effect.find_best_for_bitrate t c ∈
        (update_video_quality_from_bitrate sampleEnv s_armed 300000 1 false).2 →
        t = ctrunc ((300000 : ℚ) / 1)) ∧
    (∀ sz c b2, Effect.find_best_for_size_and_bitrate sz c b2 ∈
        (update_video_quality_from_bitrate sampleEnv s_armed 300000 1 false).2 →
        b2 = 300000 ∧ sz = sampleEnv.current_vconf.vsize) ∧
    (∀ t c, Effect.find_best_for_bitrate t c ∈
        (ms_video_quality_controller_process_timer sampleEnv 12 s_armed).2 →
        t = ctrunc ((s_armed.obj.last_tmmbr : ℚ) / INCREASE_BITRATE_THRESHOLD)) ∧
    (∀ sz c b2, Effect.find_best_for_size_and_bitrate sz c b2 ∈
        (ms_video_quality_controller_process_timer sampleEnv 12 s_armed).2 →
        b2 = s_armed.obj.last_tmmbr)) :=
  ⟨rfl, claim_threshold_division sampleEnv 12 s_armed 300000 1 [cfgA, cfgB] rfl⟩

/-- Once non-sentinel, `last_tmmbr` stays non-sentinel along any run of
non-negative feedback events and ticks. -/
theorem run_events_keeps_nonsentinel (es : List Event) :
    ∀ s : CState, s.obj.last_tmmbr ≠ -1 → (∀ e ∈ es, e.nonneg_feedback) →
      (run_events s es).obj.last_tmmbr ≠ -1 := by
  induction es with
  | nil => intro s h0 _; exact h0
  | cons e es ih =>
    intro s h0 hn
    have hstep : (run_event s e).obj.last_tmmbr ≠ -1 := by
      cases e with
      | feedback env now t =>
        have ht : (0 : Int) ≤ t := hn _ (List.mem_cons_self _ _)
        unfold run_event
        rw [last_tmmbr_after_feedback env now s t]
        omega
      | tick env now =>
        unfold run_event
        rw [process_timer_last_tmmbr env now s]
        exact h0
    exact ih (run_event s e) hstep (fun e' he' => hn e' (List.mem_cons_of_mem e he'))

/-- Claim C7: under the caller contract that feedback values are
non-negative, once `last_tmmbr` has been set to a value other than the
sentinel `-1`, no sequence of feedback and tick events ever brings it back
to `-1`. -/
theorem claim_sentinel_never_reverts (s : CState) (es : List Event)
    (h0 : s.obj.last_tmmbr ≠ -1) (hn : ∀ e ∈ es, e.nonneg_feedback) :
    (run_events s es).obj.last_tmmbr ≠ -1 :=
  run_events_keeps_nonsentinel es s h0 hn

/-- Witness for claim C7: a concrete run with one feedback and one tick. -/
theorem claim_sentinel_never_reverts_witness :
    (s_tracking.obj.last_tmmbr ≠ -1 ∧
     (∀ e ∈ [Event.feedback sampleEnv 0 600000, Event.tick sampleEnv 12],
        e.nonneg_feedback)) ∧
    (run_events s_tracking
      [Event.feedback sampleEnv 0 600000, Event.tick sampleEnv 12]).obj.last_tmmbr ≠ -1 :=
  ⟨⟨by decide, by
      intro e he
      simp only [List.mem_cons] at he
      rcases he with rfl | rfl | he
      · show (0 : Int) ≤ 600000
        norm_num
      · trivial
      · exact absurd he (List.not_mem_nil e)⟩,
   claim_sentinel_never_reverts s_tracking
     [Event.feedback sampleEnv 0 600000, Event.tick sampleEnv 12] (by decide)
     (by
      intro e he
      simp only [List.mem_cons] at he
      rcases he with rfl | rfl | he
      · show (0 : Int) ≤ 600000
        norm_num
      · trivial
      · exact absurd he (List.not_mem_nil e))⟩

/-- Counterexample to claim C10 as stated: at a concrete fired tick the
controller's last-requested size (`last_vsize`) changes, so the timer
handler does modify controller state beyond the timer-running flag. -/
theorem claim_tick_changes_more_than_timer_flag_counterexample :
    (ms_video_quality_controller_process_timer resEnv 10 s_armed).1.obj.last_vsize ≠
      s_armed.obj.last_vsize := by decide

/-- Claim C10 (amended): `last_tmmbr` is written only by the feedback
handler — `update_video_quality_from_bitrate` and the timer handler both
preserve it — a fired tick performs exactly the threshold-1.3 adjustment at
the recorded `last_tmmbr`, and the timer handler changes no controller
state other than the timer-running flag and whatever that one adjustment
writes (in particular the last-requested size on a resolution change); the
timer's start time is preserved as well. -/
theorem claim_last_tmmbr_written_only_by_feedback (env : Env) (now : Int) (s : CState)
    (b : Int) (th : ℚ) (fo : Bool) :
    (update_video_quality_from_bitrate env s b th fo).1.obj.last_tmmbr =
      s.obj.last_tmmbr ∧
    (ms_video_quality_controller_process_timer env now s).1.obj.last_tmmbr =
      s.obj.last_tmmbr ∧
    (ms_video_quality_controller_process_timer env now s).1.obj.increase_timer_start =
      s.obj.increase_timer_start ∧
    (s.obj.increase_timer_running = true →
      now - s.obj.increase_timer_start ≥ INCREASE_TIMER_DELAY →
      ms_video_quality_controller_process_timer env now s = spec_timer_fired env s) := by
  refine ⟨(update_obj_fields env s b th fo).1, process_timer_last_tmmbr env now s,
    process_timer_start env now s, ?_⟩
  intro hrun hge
  unfold ms_video_quality_controller_process_timer
  rw [if_pos hrun, if_pos hge]
  rfl

/-- Witness for amended claim C10 at a concrete fired tick. -/
theorem claim_last_tmmbr_written_only_by_feedback_witness :
    (s_armed.obj.increase_timer_running = true ∧
     10 - s_armed.obj.increase_timer_start ≥ INCREASE_TIMER_DELAY) ∧
    ms_video_quality_controller_process_timer resEnv 10 s_armed =
      spec_timer_fired resEnv s_armed :=
  ⟨⟨by decide, by decide⟩,
   (claim_last_tmmbr_written_only_by_feedback resEnv 10 s_armed 600000 1 false).2.2.2
     (by decide) (by decide)⟩
